import Mathlib

/-!
Verification development for the speech-dynamics web application (`app.py`).

The application is a single-file Flask app.  We shallowly embed its pure
computation and its externally visible effects:

* external library results (speech recognition, Praat pitch/intensity
  extraction, the pronunciation dictionary, wall clock, UUID source) are
  inputs to the embedded functions;
* filesystem effects are modelled as an explicit list of writes produced by
  the orchestrator;
* numpy arrays of floating-point samples are modelled as `List ℚ`: the code
  only compares samples against `0` and slices the arrays, never performs
  float arithmetic, so rationals model every comparison the code makes.
-/

/-- A wall-clock instant at second resolution, the data consumed by
`datetime.now().strftime('%Y%m%d_%H%M%S')` in `generate_unique_name`. -/
structure Timestamp where
  year : Nat
  month : Nat
  day : Nat
  hour : Nat
  minute : Nat
  second : Nat
deriving DecidableEq

/-- Zero-padded two-digit rendering, as `%m %d %H %M %S` produce. -/
def pad2 (n : Nat) : String :=
  if n < 10 then "0" ++ toString n else toString n

/-- Zero-padded four-digit rendering, as `%Y` produces for ordinary years. -/
def pad4 (n : Nat) : String :=
  if n < 10 then "000" ++ toString n
  else if n < 100 then "00" ++ toString n
  else if n < 1000 then "0" ++ toString n
  else toString n

/-- `datetime.strftime('%Y%m%d_%H%M%S')` applied to a timestamp. -/
def strftime_YmdHMS (t : Timestamp) : String :=
  pad4 t.year ++ pad2 t.month ++ pad2 t.day ++ "_" ++
    pad2 t.hour ++ pad2 t.minute ++ pad2 t.second

/-- Python slicing `s[:8]`. -/
def pySlice8 (s : String) : String :=
  String.mk (s.toList.take 8)

/-- `app.py` lines 19–23: `generate_unique_name`.  The nondeterministic
inputs (current wall clock, the 32-hex-character `uuid.uuid4().hex`) are
passed explicitly. -/
def generate_unique_name (now : Timestamp) (uuid4hex : String) : String :=
  strftime_YmdHMS now ++ "_" ++ pySlice8 uuid4hex

/-- Lowercase hexadecimal digit, the alphabet of `uuid.uuid4().hex`. -/
def isLowerHexDigit (c : Char) : Bool :=
  c.isDigit || ('a' ≤ c && c ≤ 'f')

/-- `app.py` lines 25–28: `phonetic_transcription`.  The static CMU
pronunciation dictionary behind `pronouncing.phones_for_word` is passed as a
function from a word to its list of transcriptions. -/
def phonetic_transcription (phones_for_word : String → List String)
    (word : String) : String :=
  match phones_for_word word with
  | [] => "No transcription found"
  | p :: _ => p

/-- Outcome of the external Google speech-recognition call in
`transcribe_audio_to_text`: either recognized text, or one of the two
exceptions the code catches. -/
inductive RecResult where
  | success (text : String)
  | unknownValueError
  | requestError (msg : String)
deriving DecidableEq

/-- `app.py` lines 30–40: `transcribe_audio_to_text`, as a function of the
recognizer outcome for the given audio. -/
def transcribe_audio_to_text : RecResult → String
  | RecResult.success t => t
  | RecResult.unknownValueError => "Could not understand the audio."
  | RecResult.requestError e => "Error with the API: " ++ e

/-- Raw series produced by the parselmouth library for one sound:
`pitch.selected_array['frequency']`, `pitch.xs()`, the flattened
`intensity.values`, and `intensity.xs()`. -/
structure RawProsody where
  pitch_values : List ℚ
  pitch_times : List ℚ
  intensity_values : List ℚ
  intensity_times : List ℚ
deriving DecidableEq

/-- numpy boolean-mask indexing `xs[mask]`: keep the elements whose mask
entry is true (masks arising in the code have the array's own length). -/
def numpyMask {α : Type} (mask : List Bool) (xs : List α) : List α :=
  ((mask.zip xs).filter (fun q => q.1)).map (fun q => q.2)

/-- `app.py` lines 49–51: `voiced_frames = pitch_values > 0;
pitch_values = pitch_values[voiced_frames];
pitch_times = pitch_times[voiced_frames]`.
Returns (filtered times, filtered values). -/
def voicedPitch (pitch_values pitch_times : List ℚ) : List ℚ × List ℚ :=
  let voiced_frames := pitch_values.map (fun v => decide (0 < v))
  (numpyMask voiced_frames pitch_times, numpyMask voiced_frames pitch_values)

/-- `app.py` line 57: the minimum of the four series lengths at the
truncation point (pitch times/values after the voicing filter, intensity
times/values as extracted). -/
def prosodyMinLen (raw : RawProsody) : Nat :=
  min (min (min (voicedPitch raw.pitch_values raw.pitch_times).1.length
                (voicedPitch raw.pitch_values raw.pitch_times).2.length)
           raw.intensity_times.length)
      raw.intensity_values.length

/-- The four series handed to the two `plt.plot` calls (lines 64, 71). -/
structure ProsodyPlot where
  pitch_times : List ℚ
  pitch_values : List ℚ
  intensity_times : List ℚ
  intensity_values : List ℚ
deriving DecidableEq

/-- Data written to disk by the application. -/
inductive FileData where
  | bytes (content : List Nat)
  | png (plot : ProsodyPlot)
  | text (s : String)
deriving DecidableEq

/-- One filesystem write: a destination path and the data stored there. -/
structure FSWrite where
  path : String
  data : FileData
deriving DecidableEq

/-- Result of `prosody_analysis`: the plotted series, the returned path and
the write performed by `plt.savefig`. -/
structure ProsodyResult where
  plot : ProsodyPlot
  plot_path : String
  writes : List FSWrite
deriving DecidableEq

/-- `app.py` lines 42–81: `prosody_analysis`.  The parselmouth extraction
results are the `raw` input; plotting is modelled by recording the series
passed to `plt.plot`, and `plt.savefig(plot_path)` as a write of that plot
to `os.path.join('static', output_name + '_prosody.png')`. -/
def prosody_analysis (raw : RawProsody) (output_name : String) : ProsodyResult :=
  let pitch_times := (voicedPitch raw.pitch_values raw.pitch_times).1
  let pitch_values := (voicedPitch raw.pitch_values raw.pitch_times).2
  let intensity_values := raw.intensity_values
  let intensity_times := raw.intensity_times
  let min_len := prosodyMinLen raw
  let plot : ProsodyPlot :=
    { pitch_times := pitch_times.take min_len
      pitch_values := pitch_values.take min_len
      intensity_times := intensity_times.take min_len
      intensity_values := intensity_values.take min_len }
  let plot_path := "static" ++ "/" ++ output_name ++ "_prosody.png"
  { plot := plot
    plot_path := plot_path
    writes := [{ path := plot_path, data := FileData.png plot }] }

/-- Python `str.split()` (no argument): split on runs of whitespace,
dropping empty tokens.  `acc` holds the current word reversed. -/
def pySplitAux : List Char → List Char → List String
  | [], [] => []
  | [], acc => [String.mk acc.reverse]
  | c :: cs, acc =>
      if c.isWhitespace then
        match acc with
        | [] => pySplitAux cs []
        | _ => String.mk acc.reverse :: pySplitAux cs []
      else pySplitAux cs (c :: acc)

/-- Python `text.split()` as used on line 104. -/
def pySplit (s : String) : List String :=
  pySplitAux s.toList []

/-- An uploaded file as seen through Flask: its client-supplied filename
and its byte content. -/
structure UploadedFile where
  filename : String
  content : List Nat
deriving DecidableEq

/-- A POST request's `request.files` mapping, as an association list. -/
structure Request where
  files : List (String × UploadedFile)
deriving DecidableEq

/-- Dictionary access on `request.files`: membership test and item lookup
combined. -/
def lookupFile (files : List (String × UploadedFile)) (key : String) :
    Option UploadedFile :=
  (files.find? (fun q => q.1 == key)).map (fun q => q.2)

/-- The response the `index` view produces on POST: either a plain error
string or the rendered results page. -/
inductive Response where
  | plain (s : String)
  | page (text phonetic plot_url download_url : String)
deriving DecidableEq

/-- The phonetic string shown by a response, when it is a results page. -/
def Response.phoneticOf : Response → Option String
  | Response.page _ p _ _ => some p
  | _ => none

/-- External-world inputs consumed by one POST request: the wall clock and
UUID draw, the recognizer outcome for the saved audio, the parselmouth
extraction for the saved audio, and the pronunciation dictionary. -/
structure Env where
  now : Timestamp
  uuidHex : String
  recResult : RecResult
  rawProsody : RawProsody
  phonesDict : String → List String

/-- `app.py` lines 85–115: the POST branch of `index`.  Returns the
response together with the list of filesystem writes, in program order:
the uploaded audio copy (line 97), the chart image (line 79, inside
`prosody_analysis`), and the transcript artifact (lines 109–111). -/
def index (env : Env) (req : Request) : Response × List FSWrite :=
  match lookupFile req.files "audio_file" with
  | none => (Response.plain "No file part", [])
  | some file =>
    if file.filename = "" then (Response.plain "No selected file", [])
    else
      let unique_name := generate_unique_name env.now env.uuidHex
      let file_path := "uploads" ++ "/" ++ unique_name ++ "_" ++ file.filename
      let text := transcribe_audio_to_text env.recResult
      let pr := prosody_analysis env.rawProsody unique_name
      let words := pySplit text
      let phonetic_list := words.map (phonetic_transcription env.phonesDict)
      let phonetic := String.intercalate " " phonetic_list
      let transcription_path := "outputs" ++ "/" ++ unique_name ++ ".txt"
      let transcript_content :=
        "Transcribed Text:\n" ++ text ++ "\n\nPhonetic Transcription:\n" ++ phonetic
      (Response.page text phonetic
          ("/static/" ++ unique_name ++ "_prosody.png")
          ("/download/" ++ unique_name ++ ".txt"),
        [{ path := file_path, data := FileData.bytes file.content }] ++
          pr.writes ++
          [{ path := transcription_path, data := FileData.text transcript_content }])

/-- The phonetic-derivation formula as the spec states it: split the
transcript on whitespace into words, look each word up, join the results
with single spaces. -/
def specPhonetic (dict : String → List String) (t : String) : String :=
  String.intercalate " " ((pySplit t).map (phonetic_transcription dict))

/-! ## Helper lemmas -/

theorem numpyMask_map_self {α : Type} (p : α → Bool) (xs : List α) :
    numpyMask (xs.map p) xs = xs.filter p := by
  induction xs with
  | nil => rfl
  | cons x xs ih =>
    simp only [numpyMask, List.map_cons, List.zip_cons_cons, List.filter_cons] at *
    cases hp : p x <;> simp [hp, ih]

theorem numpyMask_map_zip {α : Type} (p : α → Bool) :
    ∀ ts vs : List α, ts.length = vs.length →
      numpyMask (vs.map p) ts =
        ((ts.zip vs).filter (fun q => p q.2)).map (fun q => q.1) := by
  intro ts
  induction ts with
  | nil =>
    intro vs h
    cases vs with
    | nil => rfl
    | cons v vs => simp at h
  | cons t ts ih =>
    intro vs h
    cases vs with
    | nil => simp at h
    | cons v vs =>
      simp only [List.length_cons, Nat.succ_inj] at h
      simp only [numpyMask, List.map_cons, List.zip_cons_cons, List.filter_cons] at *
      cases hp : p v <;> simp [hp, ih vs h]

/-! ## Claim theorems -/

/-- C1: in `prosody_analysis`, after extracting the pitch series (times and
values) and the intensity series (times and values), all four series are
truncated to the minimum of their four lengths, so the pitch and intensity
series passed to the plotting calls always have equal length. -/
theorem prosody_truncation_equal_lengths (raw : RawProsody) (output_name : String) :
    (prosody_analysis raw output_name).plot.pitch_times.length = prosodyMinLen raw ∧
    (prosody_analysis raw output_name).plot.pitch_values.length = prosodyMinLen raw ∧
    (prosody_analysis raw output_name).plot.intensity_times.length = prosodyMinLen raw ∧
    (prosody_analysis raw output_name).plot.intensity_values.length = prosodyMinLen raw := by
  simp only [prosody_analysis, prosodyMinLen, List.length_take]
  omega

/-- C8: the voicing filter of `prosody_analysis` discards exactly the frames
whose fundamental frequency is ≤ 0 — the surviving pitch values are the
positive ones in order, and the surviving pitch times are the times of
exactly those frames, the same frame mask applied to both arrays. -/
theorem voicing_filter_spec (pitch_values pitch_times : List ℚ)
    (h : pitch_times.length = pitch_values.length) :
    (voicedPitch pitch_values pitch_times).2 =
        pitch_values.filter (fun v => decide (0 < v)) ∧
    (voicedPitch pitch_values pitch_times).1 =
        ((pitch_times.zip pitch_values).filter
            (fun q => decide (0 < q.2))).map (fun q => q.1) := by
  constructor
  · exact numpyMask_map_self _ _
  · exact numpyMask_map_zip _ _ _ h

theorem voicing_filter_spec_witness :
    ([(0:ℚ), 10, 20, 30].length = [(1:ℚ), 0, -3, 5].length) ∧
    ((voicedPitch [(1:ℚ), 0, -3, 5] [(0:ℚ), 10, 20, 30]).2 =
        [(1:ℚ), 0, -3, 5].filter (fun v => decide (0 < v)) ∧
      (voicedPitch [(1:ℚ), 0, -3, 5] [(0:ℚ), 10, 20, 30]).1 =
        (([(0:ℚ), 10, 20, 30].zip [(1:ℚ), 0, -3, 5]).filter
            (fun q => decide (0 < q.2))).map (fun q => q.1)) :=
  ⟨by decide, voicing_filter_spec [(1:ℚ), 0, -3, 5] [(0:ℚ), 10, 20, 30] (by decide)⟩

/-- C3: `phonetic_transcription` returns the first transcription listed in
the pronunciation dictionary when the dictionary has at least one entry for
the word, and the fixed not-found sentinel when it has none. -/
theorem phonetic_transcription_first_or_sentinel
    (dict : String → List String) (word p : String) (ps : List String) :
    (dict word = p :: ps → phonetic_transcription dict word = p) ∧
    (dict word = [] → phonetic_transcription dict word = "No transcription found") := by
  constructor <;> intro h <;> simp [phonetic_transcription, h]

theorem phonetic_transcription_first_or_sentinel_witness :
    ((fun w => if w = "hello" then ["HH AH0 L OW1", "HH EH0 L OW1"] else []) "hello"
        = "HH AH0 L OW1" :: ["HH EH0 L OW1"] ∧
      phonetic_transcription
        (fun w => if w = "hello" then ["HH AH0 L OW1", "HH EH0 L OW1"] else [])
        "hello" = "HH AH0 L OW1") ∧
    ((fun w => if w = "hello" then ["HH AH0 L OW1", "HH EH0 L OW1"] else []) "zzq" = [] ∧
      phonetic_transcription
        (fun w => if w = "hello" then ["HH AH0 L OW1", "HH EH0 L OW1"] else [])
        "zzq" = "No transcription found") :=
  ⟨⟨by decide,
    (phonetic_transcription_first_or_sentinel
      (fun w => if w = "hello" then ["HH AH0 L OW1", "HH EH0 L OW1"] else [])
      "hello" "HH AH0 L OW1" ["HH EH0 L OW1"]).1 (by decide)⟩,
   ⟨by decide,
    (phonetic_transcription_first_or_sentinel
      (fun w => if w = "hello" then ["HH AH0 L OW1", "HH EH0 L OW1"] else [])
      "zzq" "HH AH0 L OW1" ["HH EH0 L OW1"]).2 (by decide)⟩⟩

/-- C9: `phonetic_transcription` is deterministic — two invocations with the
same word and the same static dictionary return the same string. -/
theorem phonetic_transcription_deterministic
    (d₁ d₂ : String → List String) (w₁ w₂ : String)
    (hd : d₁ = d₂) (hw : w₁ = w₂) :
    phonetic_transcription d₁ w₁ = phonetic_transcription d₂ w₂ := by
  rw [hd, hw]

theorem phonetic_transcription_deterministic_witness :
    ((fun _ : String => ["K AE1 T"]) = (fun _ : String => ["K AE1 T"])) ∧
    ("cat" = "cat") ∧
    phonetic_transcription (fun _ => ["K AE1 T"]) "cat" =
      phonetic_transcription (fun _ => ["K AE1 T"]) "cat" :=
  ⟨rfl, rfl,
    phonetic_transcription_deterministic
      (fun _ => ["K AE1 T"]) (fun _ => ["K AE1 T"]) "cat" "cat" rfl rfl⟩

/-- C2 counterexample: on an `UnknownValueError` the transcriber does not
return the string "could not understand audio" claimed by the spec; the
fixed string in the code is "Could not understand the audio.". -/
theorem transcribe_unknown_string_differs :
    transcribe_audio_to_text RecResult.unknownValueError ≠
      "could not understand audio" := by
  decide

/-- C2 (amended): `transcribe_audio_to_text` never raises on the two
recognized failure modes: on `UnknownValueError` it returns the fixed string
"Could not understand the audio.", on `RequestError` it returns a string
embedding the underlying error message; both results are ordinary strings
indistinguishable from a transcript a successful recognition could have
produced. -/
theorem transcribe_failure_modes (e : String) :
    transcribe_audio_to_text RecResult.unknownValueError =
        "Could not understand the audio." ∧
    transcribe_audio_to_text (RecResult.requestError e) =
        "Error with the API: " ++ e ∧
    (∃ t, transcribe_audio_to_text RecResult.unknownValueError =
        transcribe_audio_to_text (RecResult.success t)) ∧
    (∃ t, transcribe_audio_to_text (RecResult.requestError e) =
        transcribe_audio_to_text (RecResult.success t)) :=
  ⟨rfl, rfl, ⟨"Could not understand the audio.", rfl⟩, ⟨"Error with the API: " ++ e, rfl⟩⟩

/-- C6: `generate_unique_name` takes no program inputs (only the wall clock
and the UUID draw) and returns the `%Y%m%d_%H%M%S`-formatted current time
combined with an 8-character suffix sliced from `uuid4().hex`; whenever the
UUID source delivers its 32 lowercase hex characters, that suffix has
exactly 8 characters, all hexadecimal. -/
theorem generate_unique_name_format (now : Timestamp) (u : String)
    (h32 : u.toList.length = 32) (hhex : ∀ c ∈ u.toList, isLowerHexDigit c) :
    generate_unique_name now u = strftime_YmdHMS now ++ "_" ++ pySlice8 u ∧
    (pySlice8 u).toList.length = 8 ∧
    ∀ c ∈ (pySlice8 u).toList, isLowerHexDigit c := by
  refine ⟨rfl, ?_, ?_⟩
  · show (u.toList.take 8).length = 8
    rw [List.length_take, h32]
    decide
  · intro c hc
    exact hhex c (List.take_subset 8 u.toList hc)

theorem generate_unique_name_format_witness :
    (("0123456789abcdef0123456789abcdef").toList.length = 32 ∧
      ∀ c ∈ ("0123456789abcdef0123456789abcdef").toList, isLowerHexDigit c) ∧
    (generate_unique_name ⟨2026, 10, 12, 3, 4, 5⟩ "0123456789abcdef0123456789abcdef" =
        strftime_YmdHMS ⟨2026, 10, 12, 3, 4, 5⟩ ++ "_" ++
          pySlice8 "0123456789abcdef0123456789abcdef" ∧
      (pySlice8 "0123456789abcdef0123456789abcdef").toList.length = 8 ∧
      ∀ c ∈ (pySlice8 "0123456789abcdef0123456789abcdef").toList, isLowerHexDigit c) :=
  ⟨⟨by decide, by decide⟩,
    generate_unique_name_format ⟨2026, 10, 12, 3, 4, 5⟩
      "0123456789abcdef0123456789abcdef" (by decide) (by decide)⟩

/-- A concrete environment used by the closed witness theorems. -/
def sampleEnv : Env :=
  { now := ⟨2026, 10, 12, 3, 4, 5⟩
    uuidHex := "0123456789abcdef0123456789abcdef"
    recResult := RecResult.success "hello world"
    rawProsody := ⟨[1, 0, 2], [0, 1, 2], [5, 6], [0, 1]⟩
    phonesDict := fun w => if w = "hello" then ["HH AH0 L OW1"] else [] }

/-- C4: a POST whose files lack the upload field gets the fixed
"No file part" text, and a present field with an empty filename gets the
fixed "No selected file" text; in both terminal states the write list is
empty — no job id is used and no artifact is created. -/
theorem index_upload_validation (env : Env) (req : Request) :
    (lookupFile req.files "audio_file" = none →
      index env req = (Response.plain "No file part", [])) ∧
    (∀ file, lookupFile req.files "audio_file" = some file → file.filename = "" →
      index env req = (Response.plain "No selected file", [])) := by
  constructor
  · intro h
    simp [index, h]
  · intro file h hf
    simp [index, h, hf]

theorem index_upload_validation_witness :
    (lookupFile ([] : List (String × UploadedFile)) "audio_file" = none ∧
      index sampleEnv ⟨[]⟩ = (Response.plain "No file part", [])) ∧
    (lookupFile [("audio_file", (⟨"", [1, 2]⟩ : UploadedFile))] "audio_file" =
        some ⟨"", [1, 2]⟩ ∧
      (⟨"", [1, 2]⟩ : UploadedFile).filename = "" ∧
      index sampleEnv ⟨[("audio_file", ⟨"", [1, 2]⟩)]⟩ =
        (Response.plain "No selected file", [])) :=
  ⟨⟨rfl, (index_upload_validation sampleEnv ⟨[]⟩).1 rfl⟩,
   ⟨by decide, rfl,
     (index_upload_validation sampleEnv ⟨[("audio_file", ⟨"", [1, 2]⟩)]⟩).2
       ⟨"", [1, 2]⟩ (by decide) rfl⟩⟩

/-- C5: for every transcript (including the error-as-content strings the
transcriber returns), the phonetic string on the orchestrator's results page
equals the transcript split on whitespace, each word mapped through
`phonetic_transcription`, and the results joined with single spaces. -/
theorem index_phonetic_formula (env : Env) (req : Request) (file : UploadedFile)
    (hf : lookupFile req.files "audio_file" = some file)
    (hn : file.filename ≠ "") :
    Response.phoneticOf (index env req).1 =
      some (specPhonetic env.phonesDict (transcribe_audio_to_text env.recResult)) := by
  simp [index, hf, hn, specPhonetic, Response.phoneticOf]

theorem index_phonetic_formula_witness :
    (lookupFile [("audio_file", (⟨"a.wav", [1]⟩ : UploadedFile))] "audio_file" =
        some ⟨"a.wav", [1]⟩ ∧
      (⟨"a.wav", [1]⟩ : UploadedFile).filename ≠ "") ∧
    Response.phoneticOf (index sampleEnv ⟨[("audio_file", ⟨"a.wav", [1]⟩)]⟩).1 =
      some (specPhonetic sampleEnv.phonesDict
        (transcribe_audio_to_text sampleEnv.recResult)) :=
  ⟨⟨by decide, by decide⟩,
    index_phonetic_formula sampleEnv ⟨[("audio_file", ⟨"a.wav", [1]⟩)]⟩
      ⟨"a.wav", [1]⟩ (by decide) (by decide)⟩

/-- C7: on a successful upload the pipeline performs exactly three writes,
whose paths follow the fixed layout keyed by the shared job id:
`uploads/<job-id>_<original-filename>`, then `static/<job-id>_prosody.png`,
then `outputs/<job-id>.txt`. -/
theorem index_artifact_paths (env : Env) (req : Request) (file : UploadedFile)
    (hf : lookupFile req.files "audio_file" = some file)
    (hn : file.filename ≠ "") :
    (index env req).2.map FSWrite.path =
      ["uploads" ++ "/" ++ generate_unique_name env.now env.uuidHex ++ "_" ++ file.filename,
       "static" ++ "/" ++ generate_unique_name env.now env.uuidHex ++ "_prosody.png",
       "outputs" ++ "/" ++ generate_unique_name env.now env.uuidHex ++ ".txt"] := by
  simp [index, hf, hn, prosody_analysis]

theorem index_artifact_paths_witness :
    (lookupFile [("audio_file", (⟨"a.wav", [1]⟩ : UploadedFile))] "audio_file" =
        some ⟨"a.wav", [1]⟩ ∧
      (⟨"a.wav", [1]⟩ : UploadedFile).filename ≠ "") ∧
    (index sampleEnv ⟨[("audio_file", ⟨"a.wav", [1]⟩)]⟩).2.map FSWrite.path =
      ["uploads" ++ "/" ++ generate_unique_name sampleEnv.now sampleEnv.uuidHex ++
          "_" ++ "a.wav",
       "static" ++ "/" ++ generate_unique_name sampleEnv.now sampleEnv.uuidHex ++
          "_prosody.png",
       "outputs" ++ "/" ++ generate_unique_name sampleEnv.now sampleEnv.uuidHex ++ ".txt"] :=
  ⟨⟨by decide, by decide⟩,
    index_artifact_paths sampleEnv ⟨[("audio_file", ⟨"a.wav", [1]⟩)]⟩
      ⟨"a.wav", [1]⟩ (by decide) (by decide)⟩

theorem pySplitAux_all_whitespace (cs : List Char)
    (h : ∀ c ∈ cs, c.isWhitespace) : pySplitAux cs [] = [] := by
  induction cs with
  | nil => rfl
  | cons c cs ih =>
    have hc : c.isWhitespace = true := h c (List.mem_cons_self c cs)
    simp only [pySplitAux, hc, if_true]
    exact ih (fun x hx => h x (List.mem_cons_of_mem _ hx))

theorem pySplit_all_whitespace (s : String)
    (h : s.toList.all Char.isWhitespace) : pySplit s = [] :=
  pySplitAux_all_whitespace s.toList (by simpa [List.all_eq_true] using h)

/-- C10: the transcript artifact written by the orchestrator (the third
write of a successful request) contains exactly the string
`"Transcribed Text:\n" ++ t ++ "\n\nPhonetic Transcription:\n" ++ p`, where
`t` is the transcript and `p` the derived phonetic string; in particular,
for a whitespace-only transcript the phonetic section is the empty
string. -/
theorem index_transcript_artifact_format (env : Env) (req : Request)
    (file : UploadedFile)
    (hf : lookupFile req.files "audio_file" = some file)
    (hn : file.filename ≠ "") :
    ((index env req).2.map FSWrite.data)[2]? =
      some (FileData.text
        ("Transcribed Text:\n" ++ transcribe_audio_to_text env.recResult ++
          "\n\nPhonetic Transcription:\n" ++
          specPhonetic env.phonesDict (transcribe_audio_to_text env.recResult))) ∧
    ((transcribe_audio_to_text env.recResult).toList.all Char.isWhitespace →
      specPhonetic env.phonesDict (transcribe_audio_to_text env.recResult) = "") := by
  constructor
  · simp [index, hf, hn, prosody_analysis, specPhonetic]
  · intro hw
    rw [specPhonetic, pySplit_all_whitespace _ hw]
    rfl

theorem index_transcript_artifact_format_witness :
    (lookupFile [("audio_file", (⟨"a.wav", [1]⟩ : UploadedFile))] "audio_file" =
        some ⟨"a.wav", [1]⟩ ∧
      (⟨"a.wav", [1]⟩ : UploadedFile).filename ≠ "" ∧
      (transcribe_audio_to_text
          ({ sampleEnv with recResult := RecResult.success "  \t " }).recResult).toList.all
        Char.isWhitespace) ∧
    (((index { sampleEnv with recResult := RecResult.success "  \t " }
          ⟨[("audio_file", ⟨"a.wav", [1]⟩)]⟩).2.map FSWrite.data)[2]? =
        some (FileData.text
          ("Transcribed Text:\n" ++
            transcribe_audio_to_text
              ({ sampleEnv with recResult := RecResult.success "  \t " }).recResult ++
            "\n\nPhonetic Transcription:\n" ++
            specPhonetic
              ({ sampleEnv with recResult := RecResult.success "  \t " }).phonesDict
              (transcribe_audio_to_text
                ({ sampleEnv with recResult := RecResult.success "  \t " }).recResult))) ∧
      specPhonetic ({ sampleEnv with recResult := RecResult.success "  \t " }).phonesDict
        (transcribe_audio_to_text
          ({ sampleEnv with recResult := RecResult.success "  \t " }).recResult) = "") := by
  have h := index_transcript_artifact_format
    { sampleEnv with recResult := RecResult.success "  \t " }
    ⟨[("audio_file", ⟨"a.wav", [1]⟩)]⟩ ⟨"a.wav", [1]⟩ (by decide) (by decide)
  exact ⟨⟨by decide, by decide, by decide⟩, h.1, h.2 (by decide)⟩
